import Mathlib

/-!
Verification of the rsconnect API client (`rsconnect/api.py`).

This file gives a shallow embedding of the client's pure protocol logic:
the paginated application search (`retrieve_matching_apps`), the response
validator (`RSConnectServer.handle_bad_response`), the task-polling loop
(`RSConnect.wait_for_task` / `output_task_log`), the deployment
orchestration (`RSConnect.deploy`) and the app-mode validation
(`RSConnectExecutor.validate_app_mode`).

Conventions of the embedding:
* the HTTP transport is a parameter: a server is a function from a request
  to a response, and stateful methods additionally return the list of
  requests they issued (their trace);
* Python `None`-able values become `Option`; Python truthiness of a value
  `x` (`if x:`) is translated at each use site (`none` and `some 0`,
  `some ""`, `some []` are falsy exactly where the Python value ranges
  over the corresponding type);
* wall-clock time in the polling loop is discrete, in units of one half
  second (the loop's fixed `sleep_duration = 0.5`); a `fuel` argument
  bounds the number of loop iterations, `none` meaning the bound was hit.
-/

set_option maxRecDepth 16000

namespace RSConnect

/-! ## Paginated search: `retrieve_matching_apps` (api.py 552-613) -/

/-- A page request, as assembled by `retrieve_matching_apps`.  The first
request carries the caller's filters (`base`) plus a `count`; follow-up
requests carry only `start`, `count` and the continuation token `cont`. -/
structure SearchFilters where
  base : List (String × String)
  start : Option Nat
  count : Nat
  cont : Option String
deriving DecidableEq, Repr

/-- One page of the search response consumed by the paginator:
`{applications, total, count, continuation}` (api.py 583-608). -/
structure SearchResponse (α : Type) where
  applications : List α
  total : Nat
  count : Nat
  continuation : String
deriving DecidableEq, Repr

/-- `page_size = 100` (api.py 570). -/
def page_size : Nat := 100

/-- The update of `maximum` at the top of each loop iteration (api.py
583-586): `if not maximum: maximum = total else: maximum = min(maximum,
total)`.  `maximum` is `None` or an `int`; Python's `not maximum` is true
on `None` and on `0`. -/
def updMax : Option Nat → Nat → Nat
  | none, total => total
  | some 0, total => total
  | some (m + 1), total => min (m + 1) total

/-- The truncation of one page (api.py 588-593), exactly as written in
the source: `returned = response["count"]`, `delta = maximum -
(total_returned + returned)` and, when `delta < 0`, `applications =
applications[: abs(delta)]`, i.e. the page is cut down to its first
`|delta|` elements. -/
def pageTrunc {α : Type} (m total_returned : Nat) (resp : SearchResponse α) : List α :=
  let returned := resp.count
  let delta : Int := (m : Int) - ((total_returned + returned : Nat) : Int)
  if delta < 0 then resp.applications.take delta.natAbs else resp.applications

/-- The per-item mapping step (api.py 596-600): apply the mapping
function to every item of the page and drop the items it maps to `None`;
no mapping function leaves the page unchanged. -/
def pageItems {α : Type} (mapping_function : Option (α → Option α)) (apps : List α) :
    List α :=
  match mapping_function with
  | some f => (apps.map f).filterMap id
  | none => apps

/-- The follow-up page request (api.py 605-609): `{start:
total_returned, count: page_size, cont: continuation}`; the caller's
original filters are not carried over. -/
def nextFilters {α : Type} (total_returned : Nat) (resp : SearchResponse α) :
    SearchFilters :=
  ⟨[], some total_returned, page_size, some resp.continuation⟩

/-- Loop of `retrieve_matching_apps` (api.py 579-611), by recursion on
`fuel` (one unit per page request; the Python loop is unbounded).  Carries
`total_returned`, `maximum`, the accumulated `result` and the trace of
page requests issued; returns `none` when fuel runs out. -/
def retrieveAux {α : Type} (server : SearchFilters → SearchResponse α)
    (mapping_function : Option (α → Option α)) :
    Nat → SearchFilters → Nat → Option Nat → List α → List SearchFilters →
    Option (List α × List SearchFilters)
  | 0, _, _, _, _, _ => none
  | fuel + 1, sf, total_returned, maximum, result, reqs =>
    let resp := server sf
    let m := updMax maximum resp.total
    let applications := pageTrunc m total_returned resp
    let total_returned2 := total_returned + applications.length
    let result2 := result ++ pageItems mapping_function applications
    let reqs2 := reqs ++ [sf]
    if total_returned2 < m then
      retrieveAux server mapping_function fuel
        (nextFilters total_returned2 resp) total_returned2 (some m) result2 reqs2
    else
      some (result2, reqs2)

/-- `retrieve_matching_apps(connect_server, filters, limit, mapping_function)`
(api.py 552-613).  The first request's `count` is
`min(limit, page_size) if limit else page_size` (a `limit` of `None` or
`0` is falsy); `maximum` starts as the raw `limit`.  Returns the collected
apps together with the trace of page requests issued. -/
def retrieve_matching_apps {α : Type} (server : SearchFilters → SearchResponse α)
    (filters : List (String × String)) (limit : Option Nat)
    (mapping_function : Option (α → Option α)) (fuel : Nat) :
    Option (List α × List SearchFilters) :=
  let count0 :=
    match limit with
    | some l => if l ≠ 0 then min l page_size else page_size
    | none => page_size
  retrieveAux server mapping_function fuel ⟨filters, none, count0, none⟩ 0 limit [] []

/-- A well-behaved search backend over the items `0, 1, ..., total - 1`:
each request is answered from `start` with exactly `min(count, total -
start)` items, an honest `total` and `count`, and a continuation token. -/
def honestServer (total : Nat) : SearchFilters → SearchResponse Nat :=
  fun sf =>
    let start := sf.start.getD 0
    let n := min sf.count (total - start)
    ⟨(List.range n).map (fun i => start + i), total, n, toString (start + n)⟩

end RSConnect

namespace RSConnect

/-! ## Response validation: `RSConnectServer.handle_bad_response` (api.py 39-56) -/

/-- The transport-level response shape consumed by the validator:
status code, reason phrase, parsed JSON body (a dictionary, when parsing
succeeded) and a captured transport exception. -/
structure HTTPResponse where
  status : Nat
  reason : String
  json_data : Option (List (String × String))
  exception : Option String
deriving DecidableEq, Repr

/-- Errors raised by the client (`RSConnectException`), separated by the
message they carry. -/
inductive ApiError where
  | connectException (url msg : String)
  | serverError (msg : String)
  | unexpectedStatus (status : Nat) (reason : String)
deriving DecidableEq, Repr

/-- `response.json_data and "error" in response.json_data` (api.py 49):
a missing or empty body is falsy, otherwise membership of the key. -/
def json_has_error (j : Option (List (String × String))) : Bool :=
  match j with
  | some kvs => kvs.any (fun kv => kv.1 = "error")
  | none => false

/-- `RSConnectServer.handle_bad_response` on an `HTTPResponse`
(api.py 39-56): raise on a captured exception; else raise if the body
carries an `error` field; else raise if the status is outside 200-299;
otherwise do nothing. -/
def handle_bad_response (url : String) (r : HTTPResponse) : Except ApiError Unit :=
  match r.exception with
  | some e => .error (.connectException url e)
  | none =>
    if json_has_error r.json_data then
      .error (.serverError (((r.json_data.getD []).lookup "error").getD ""))
    else if r.status < 200 ∨ 299 < r.status then
      .error (.unexpectedStatus r.status r.reason)
    else
      .ok ()

/-! ## Task polling: `wait_for_task` / `output_task_log` (api.py 205-273)

Time is discrete in units of the loop's fixed `sleep_duration` of one
half second: `poll_wait` and `timeout` are expressed in these half-second
ticks (the Python defaults `poll_wait=0.5`, `sleep_duration=0.5` become
`poll_wait = 1`, sleep of `1`).  The scripted server is a function from
the poll index to the task-status body; the abort predicate is a function
of the current clock.  Each call returns the final clock, the lines
emitted to the log sink, and the outcome. -/

/-- The `result` sub-object of a task status: `{data, type}`. -/
structure TaskResult where
  data : String
  type : String
deriving DecidableEq, Repr

/-- A task-status response body (api.py: `tasks/{id}`):
`{last_status, status: [lines], finished, code, result?, error?}`. -/
structure TaskStatus where
  last_status : Option Nat
  status : List String
  finished : Bool
  code : Int
  result : Option TaskResult
  error : Option String
deriving DecidableEq, Repr

/-- Errors raised by `wait_for_task`. -/
inductive WaitErr where
  | timedOut
  | aborted
  | taskFailed (exit_code : Int)
deriving DecidableEq, Repr

/-- `RSConnect.output_task_log` (api.py 258-273): if the response's
`last_status` cursor differs from the locally held one, every line of the
response's `status` array is piped to the callback and the new cursor is
adopted; otherwise nothing is emitted.  Returns the updated cursor and
the lines emitted. -/
def output_task_log (task_status : TaskStatus) (last_status : Option Nat) :
    Option Nat × List String :=
  if task_status.last_status ≠ last_status then
    (task_status.last_status, task_status.status)
  else
    (last_status, [])

/-- The lines emitted after `finished` is seen and before the exit code is
inspected (api.py 238-247): a `data (type)` summary when a structured
result carries a non-empty `data` or `type`, then the server error when
the `error` field is present and non-empty. -/
def finishedExtraLines (ts : TaskStatus) : List String :=
  (match ts.result with
   | some r => if r.data ≠ "" ∨ r.type ≠ "" then [r.data ++ " (" ++ r.type ++ ")"] else []
   | none => []) ++
  (match ts.error with
   | some e => if e ≠ "" then ["Error from Connect server: " ++ e] else []
   | none => [])

/-- The line logged when a task fails but `raise_on_error` is off
(api.py 251, 255). -/
def task_failed_line (code : Int) : String :=
  "Task failed. Task exited with status " ++ toString code ++ "."

/-- The loop-carried state of `wait_for_task`: the clock (in half-second
ticks), `time_slept`, the held `last_status` cursor, the number of polls
made so far, and the lines emitted to the sink so far. -/
structure WaitState where
  t : Nat
  time_slept : Nat
  last_status : Option Nat
  polls : Nat
  log : List String
deriving DecidableEq, Repr

/-- The `while True` loop of `wait_for_task` (api.py 220-256), by
recursion on `fuel` (one unit per iteration).  Each iteration checks the
deadline, then the abort predicate, then either sleeps one tick (while
`time_slept <= poll_wait`) or resets `time_slept` and polls the scripted
server; a `finished` status emits the extra lines and resolves the exit
code. -/
def waitAux (script : Nat → TaskStatus) (abort : Nat → Bool) (ending : Nat)
    (poll_wait : Nat) (raise_on_error : Bool) :
    Nat → WaitState → Option (Nat × List String × Except WaitErr TaskStatus)
  | 0, _ => none
  | fuel + 1, s =>
    if ending ≤ s.t then
      some (s.t, s.log, .error .timedOut)
    else if abort s.t then
      some (s.t, s.log, .error .aborted)
    else if s.time_slept ≤ poll_wait then
      waitAux script abort ending poll_wait raise_on_error fuel
        ⟨s.t + 1, s.time_slept + 1, s.last_status, s.polls, s.log⟩
    else
      let ts := script s.polls
      let cl := output_task_log ts s.last_status
      let log2 := s.log ++ cl.2
      if ts.finished then
        let log3 := log2 ++ finishedExtraLines ts
        if ts.code ≠ 0 then
          if raise_on_error then
            some (s.t, log3, .error (.taskFailed ts.code))
          else
            some (s.t, log3 ++ [task_failed_line ts.code], .ok ts)
        else
          some (s.t, log3, .ok ts)
      else
        waitAux script abort ending poll_wait raise_on_error fuel
          ⟨s.t, 0, cl.1, s.polls + 1, log2⟩

/-- `ending = time.time() + timeout if timeout else 999999999999`
(api.py 210): a falsy timeout (`None` or `0`) selects the sentinel. -/
def task_deadline (now : Nat) (timeout : Option Nat) : Nat :=
  match timeout with
  | some tmo => if tmo ≠ 0 then now + tmo else 999999999999
  | none => 999999999999

/-- `RSConnect.wait_for_task` (api.py 205-256) started at clock `t0`.
`have_callback` records whether the caller supplied a log sink: if not,
the emitted lines are accumulated and returned as the first component of
the result pair, otherwise that component is `None` (api.py 212-216,
256).  Returns `(final clock, lines emitted to the sink, outcome)`. -/
def wait_for_task (script : Nat → TaskStatus) (abort : Nat → Bool)
    (timeout : Option Nat) (poll_wait : Nat) (raise_on_error : Bool)
    (have_callback : Bool) (fuel : Nat) (t0 : Nat) :
    Option (Nat × List String × Except WaitErr (Option (List String) × TaskStatus)) :=
  (waitAux script abort (task_deadline t0 timeout) poll_wait raise_on_error fuel
      ⟨t0, 0, none, 0, []⟩).map
    (fun p => (p.1, p.2.1, p.2.2.map (fun ts => (if have_callback then none else some p.2.1, ts))))

/-- Cursor-deduplicated log concatenation: the fold of `output_task_log`
over a list of polled statuses, returning the final cursor and every line
emitted. -/
def fold_log : List TaskStatus → Option Nat → Option Nat × List String
  | [], last => (last, [])
  | ts :: rest, last =>
    let cl := output_task_log ts last
    let r := fold_log rest cl.1
    (r.1, cl.2 ++ r.2)

end RSConnect

namespace RSConnect

/-! ## Deployment orchestration: `RSConnect.deploy` (api.py 150-188)

The server side is a parameter (`DeployServer`): each endpoint either
succeeds with its parsed body or fails (a failure standing for the
exception `handle_bad_response` raises on that call's response).  `deploy`
returns its outcome together with the trace of requests it issued, in
order; an error return carries the trace up to and including the failing
request, mirroring the immediate propagation of the raised exception. -/

/-- The app object, as read by `deploy`: `{id, guid, title, url}`. -/
structure App where
  id : Nat
  guid : String
  title : String
  url : String
deriving DecidableEq, Repr

/-- One server-side request issued by `deploy`. -/
inductive DeployRequest where
  | createApp (name : String)
  | getApp (id : Nat)
  | setEnvVars (guid : String) (env_vars : List (String × String))
  | updateTitle (id : Nat) (title : String)
  | uploadBundle (id : Nat)
  | deployBundle (id : Nat) (bundle_id : Nat)
deriving DecidableEq, Repr

/-- The behaviour of the Connect server for each endpoint `deploy` uses:
`app_create`/`app_get` yield an `App`, `app_upload` yields the bundle id
of the uploaded bundle, `app_deploy` yields the task id. -/
structure DeployServer where
  app_create : String → Except ApiError App
  app_get : Nat → Except ApiError App
  app_add_environment_vars : String → List (String × String) → Except ApiError Unit
  app_update_title : Nat → String → Except ApiError Unit
  app_upload : Nat → Except ApiError Nat
  app_deploy : Nat → Nat → Except ApiError Nat

/-- The result dictionary of a successful `deploy` (api.py 182-188). -/
structure DeployResult where
  task_id : Nat
  app_id : Nat
  app_guid : String
  app_url : String
  title : String
deriving DecidableEq, Repr

/-- Steps of `deploy` after the app is created or fetched (api.py
165-188): push environment variables when `env_vars` is truthy (a
non-empty dictionary); update the title when it differs and is not a
default; upload the bundle; deploy it.  Each step validates its response
and propagates the failure at once, keeping the trace issued so far. -/
def deploy_after_fetch (srv : DeployServer) (app_id : Nat) (app : App)
    (app_title : String) (title_is_default : Bool)
    (env_vars : Option (List (String × String))) (trace : List DeployRequest) :
    Except ApiError DeployResult × List DeployRequest :=
  let envStep : Except ApiError Unit × List DeployRequest :=
    match env_vars with
    | some l =>
      if l ≠ [] then (srv.app_add_environment_vars app.guid l, [.setEnvVars app.guid l])
      else (.ok (), [])
    | none => (.ok (), [])
  let trace1 := trace ++ envStep.2
  match envStep.1 with
  | .error e => (.error e, trace1)
  | .ok _ =>
    let titleStep : Except ApiError Unit × List DeployRequest :=
      if app.title ≠ app_title ∧ title_is_default = false then
        (srv.app_update_title app_id app_title, [.updateTitle app_id app_title])
      else (.ok (), [])
    let trace2 := trace1 ++ titleStep.2
    match titleStep.1 with
    | .error e => (.error e, trace2)
    | .ok _ =>
      let title2 :=
        if app.title ≠ app_title ∧ title_is_default = false then app_title else app.title
      let trace3 := trace2 ++ [.uploadBundle app_id]
      match srv.app_upload app_id with
      | .error e => (.error e, trace3)
      | .ok bundle_id =>
        let trace4 := trace3 ++ [.deployBundle app_id bundle_id]
        match srv.app_deploy app_id bundle_id with
        | .error e => (.error e, trace4)
        | .ok task_id => (.ok ⟨task_id, app_id, app.guid, app.url, title2⟩, trace4)

/-- `RSConnect.deploy` (api.py 150-188).  With no `app_id` the app is
created by name and the title update is forced (`title_is_default`
becomes false); otherwise the existing app is fetched.  No request is
ever issued to undo an earlier step: a failure simply stops the
sequence. -/
def deploy (srv : DeployServer) (app_id : Option Nat) (app_name app_title : String)
    (title_is_default : Bool) (env_vars : Option (List (String × String))) :
    Except ApiError DeployResult × List DeployRequest :=
  match app_id with
  | none =>
    match srv.app_create app_name with
    | .error e => (.error e, [.createApp app_name])
    | .ok app => deploy_after_fetch srv app.id app app_title false env_vars [.createApp app_name]
  | some i =>
    match srv.app_get i with
    | .error e => (.error e, [.getApp i])
    | .ok app => deploy_after_fetch srv i app app_title title_is_default env_vars [.getApp i]

/-! ## App-mode validation: `RSConnectExecutor.validate_app_mode` (api.py 382-415)

The collaborators are parameters: `store_resolve` stands for
`app_store.resolve(url, app_id, app_mode)` (locally saved metadata, from
the `metadata` module) and `server_app_mode` for
`get_app_info` + `AppModes.get_by_ordinal(..., True)` (a `none` meaning
no existing mode could be determined, covering the falsy existing mode
the source tests with `if existing_app_mode`). -/

/-- App modes; the exact inventory is irrelevant to the validation logic,
which only compares modes for equality. -/
inductive AppMode where
  | unknown
  | staticMode
  | jupyter
  | shiny
deriving DecidableEq, Repr

/-- Errors raised by `validate_app_mode`. -/
inductive ValidateErr where
  | bothNewAndAppId
  | modeConflict (requested existing : AppMode)
deriving DecidableEq, Repr

/-- `RSConnectExecutor.validate_app_mode` (api.py 382-415): a new deploy
together with an app id is an immediate error; on a non-new deploy the
existing mode is read from the app store (no app id) or from the server
(app id given), and a determined existing mode different from the
requested one is a `modeConflict` error.  On success the requested mode
is returned (stored into the context as `app_mode`).  The source's
`if new and app_id` tests the truthiness of the id; Connect app ids are
nonzero numbers or non-empty GUID strings, so a present id is modelled as
truthy (`app_id.isSome`). -/
def validate_app_mode (new : Bool) (app_id : Option Nat) (default_app_mode : AppMode)
    (store_resolve : Option Nat → AppMode → Option Nat × Option AppMode)
    (server_app_mode : Nat → Option AppMode) : Except ValidateErr AppMode :=
  if new ∧ app_id.isSome then
    .error .bothNewAndAppId
  else
    let app_mode := default_app_mode
    if new then
      .ok app_mode
    else
      let existing_app_mode : Option AppMode :=
        match app_id with
        | none => (store_resolve none app_mode).2
        | some i => server_app_mode i
      match existing_app_mode with
      | some em =>
        if app_mode ≠ em then .error (.modeConflict app_mode em) else .ok app_mode
      | none => .ok app_mode

/-- Modelled from the spec: the deployment pipeline runs
`validate_app_mode` strictly before any bundle upload (the driver that
sequences the executor steps lives in the CLI `main` module, which is not
part of the sources; spec sections 3 and 4.4 state that a mode mismatch
"is a hard error before any upload occurs").  On a validation error no
deploy request at all is issued. -/
def deploy_with_validation (srv : DeployServer) (new : Bool) (app_id : Option Nat)
    (default_app_mode : AppMode)
    (store_resolve : Option Nat → AppMode → Option Nat × Option AppMode)
    (server_app_mode : Nat → Option AppMode) (app_name app_title : String)
    (title_is_default : Bool) (env_vars : Option (List (String × String))) :
    Except (ValidateErr ⊕ ApiError) DeployResult × List DeployRequest :=
  match validate_app_mode new app_id default_app_mode store_resolve server_app_mode with
  | .error e => (.error (.inl e), [])
  | .ok _ =>
    let r := deploy srv app_id app_name app_title title_is_default env_vars
    (r.1.mapError .inr, r.2)

end RSConnect

namespace RSConnect

/-! ## Derived descriptions and concrete scenarios used by the theorems -/

/-- The terminal step of the polling loop once a `finished` status is in
hand and its new log lines have been emitted (api.py 237-256): append the
extra result/error lines, then resolve the exit code.  Returns the final
sink contents and the outcome. -/
def terminal_result (raise_on_error : Bool) (ts : TaskStatus) (log : List String) :
    List String × Except WaitErr TaskStatus :=
  let log3 := log ++ finishedExtraLines ts
  if ts.code ≠ 0 then
    if raise_on_error then (log3, .error (.taskFailed ts.code))
    else (log3 ++ [task_failed_line ts.code], .ok ts)
  else (log3, .ok ts)

/-- The statuses a script serves for polls `k, k + 1, ..., k + n - 1`. -/
def script_window (script : Nat → TaskStatus) (k n : Nat) : List TaskStatus :=
  (List.range n).map (fun i => script (k + i))

/-- A task status that finishes at once (exit code 0) carrying one log
line and a structured result: the smallest run on which the summary line
is appended after the cursor-deduplicated log lines. -/
def resultfulStatus : TaskStatus :=
  ⟨some 1, ["line"], true, 0, some ⟨"d", "t"⟩, none⟩

/-- A two-poll script: first an unfinished status with two new lines,
then a finished status (exit code 0) with one more line. -/
def twoPollScript : Nat → TaskStatus :=
  fun k =>
    if k = 0 then ⟨some 1, ["a", "b"], false, 0, none, none⟩
    else ⟨some 2, ["c"], true, 0, none, none⟩

/-- A status source that never finishes. -/
def neverFinishes : Nat → TaskStatus :=
  fun _ => ⟨some 1, ["x"], false, 0, none, none⟩

/-- A finished status with exit code 5 and no result/error payload. -/
def failedStatus : TaskStatus :=
  ⟨some 1, ["a"], true, 5, none, none⟩

/-- The existing app of the deploy scenarios. -/
def sampleApp : App :=
  ⟨7, "guid-7", "old title", "http://connect/apps/7"⟩

/-- A server for the deploy scenarios: fetching app 7 succeeds, the
environment and title updates succeed, and the upload or the deploy step
fails according to the two flags. -/
def sampleDeployServer (upload_fails deploy_fails : Bool) : DeployServer :=
  ⟨fun _ => .error (.serverError "create not scripted"),
   fun i => if i = 7 then .ok sampleApp else .error (.serverError "not found"),
   fun _ _ => .ok (),
   fun _ _ => .ok (),
   fun _ => if upload_fails then .error (.unexpectedStatus 500 "Internal Server Error") else .ok 42,
   fun _ _ => if deploy_fails then .error (.unexpectedStatus 500 "Internal Server Error") else .ok 99⟩

/-- A saved-metadata resolver reporting a jupyter deployment for the
mode-validation scenarios. -/
def sampleStoreResolve : Option Nat → AppMode → Option Nat × Option AppMode :=
  fun _ _ => (some 7, some AppMode.jupyter)

/-- A server-side mode lookup reporting jupyter for app 7. -/
def sampleServerMode : Nat → Option AppMode :=
  fun i => if i = 7 then some AppMode.jupyter else none

end RSConnect

namespace RSConnect

/-! ## Lemmas: the paginator -/

/-- The loop of the paginator is a homomorphism in its two accumulators:
running from `res`/`reqs` appends the run from empty accumulators. -/
theorem retrieveAux_acc {α : Type} (server : SearchFilters → SearchResponse α)
    (mf : Option (α → Option α)) :
    ∀ (fuel : Nat) (sf : SearchFilters) (tr : Nat) (m : Option Nat)
      (res : List α) (reqs : List SearchFilters),
      retrieveAux server mf fuel sf tr m res reqs =
        (retrieveAux server mf fuel sf tr m [] []).map
          (fun p => (res ++ p.1, reqs ++ p.2)) := by
  intro fuel
  induction fuel with
  | zero => intro sf tr m res reqs; rfl
  | succ fuel ih =>
    intro sf tr m res reqs
    simp only [retrieveAux, List.nil_append]
    split
    · conv_lhs => rw [ih]
      conv_rhs => rw [ih]
      rw [Option.map_map]
      congr 1
      funext p
      simp
    · simp

/-- Running the paginator with a mapping function returns the per-page
filter-mapped items of the raw run, with an identical request trace. -/
theorem retrieveAux_map {α : Type} (server : SearchFilters → SearchResponse α)
    (f : α → Option α) :
    ∀ (fuel : Nat) (sf : SearchFilters) (tr : Nat) (m : Option Nat),
      retrieveAux server (some f) fuel sf tr m [] [] =
        (retrieveAux server none fuel sf tr m [] []).map
          (fun p => ((p.1.map f).filterMap id, p.2)) := by
  intro fuel
  induction fuel with
  | zero => intro sf tr m; rfl
  | succ fuel ih =>
    intro sf tr m
    simp only [retrieveAux, List.nil_append]
    split
    · conv_lhs => rw [retrieveAux_acc]
      rw [ih]
      conv_rhs => rw [retrieveAux_acc]
      rw [Option.map_map, Option.map_map]
      congr 1
      funext p
      simp [pageItems, List.filterMap_append]
    · simp [pageItems]

/-- `retrieve_matching_apps` with a mapping function: same request trace
as the raw run, and the result is the filter-map of the raw result. -/
theorem retrieve_matching_apps_map {α : Type} (server : SearchFilters → SearchResponse α)
    (filters : List (String × String)) (limit : Option Nat) (f : α → Option α)
    (fuel : Nat) :
    retrieve_matching_apps server filters limit (some f) fuel =
      (retrieve_matching_apps server filters limit none fuel).map
        (fun p => ((p.1.map f).filterMap id, p.2)) := by
  simp only [retrieve_matching_apps]
  exact retrieveAux_map server f fuel _ 0 limit

/-- Whenever the paginator returns, the first request of its trace is the
request it was started with. -/
theorem retrieveAux_trace_head {α : Type} {server : SearchFilters → SearchResponse α}
    {mf : Option (α → Option α)} {fuel : Nat} {sf : SearchFilters} {tr : Nat}
    {m : Option Nat} {res : List α} {trc : List SearchFilters} :
    retrieveAux server mf (fuel + 1) sf tr m [] [] = some (res, trc) →
    ∃ rest, trc = sf :: rest := by
  simp only [retrieveAux]
  split
  · intro h
    rw [retrieveAux_acc] at h
    rcases Option.map_eq_some'.mp h with ⟨p, _, hp⟩
    refine ⟨p.2, ?_⟩
    have := congrArg Prod.snd hp
    simpa using this.symm
  · intro h
    refine ⟨[], ?_⟩
    have := congrArg Prod.snd (Option.some.inj h)
    simpa using this.symm

/-- The effective maximum never exceeds the server's reported total. -/
theorem updMax_le (m : Option Nat) (total : Nat) : updMax m total ≤ total := by
  match m with
  | none => exact Nat.le_refl total
  | some 0 => exact Nat.le_refl total
  | some (k + 1) => exact min_le_right (k + 1) total

/-- Against a server that reports a constant `total`, every successful
raw (no-mapping) run of the paginator collects at least
`updMax maximum total` items beyond its accumulator: paging continues
exactly until the running item count reaches the effective maximum. -/
theorem retrieveAux_reaches {α : Type} (server : SearchFilters → SearchResponse α)
    (T : Nat) (hT : ∀ sf, (server sf).total = T) :
    ∀ (fuel : Nat) (sf : SearchFilters) (tr : Nat) (m : Option Nat)
      (res : List α) (reqs : List SearchFilters) (res' : List α)
      (trc' : List SearchFilters),
      retrieveAux server none fuel sf tr m res reqs = some (res', trc') →
      ∃ d, res'.length = res.length + d ∧ updMax m T ≤ tr + d := by
  intro fuel
  induction fuel with
  | zero =>
    intro sf tr m res reqs res' trc' h
    exact absurd h (by simp [retrieveAux])
  | succ fuel ih =>
    intro sf tr m res reqs res' trc' h
    simp only [retrieveAux, hT sf, pageItems] at h
    split at h
    · obtain ⟨d, hd1, hd2⟩ := ih _ _ _ _ _ _ _ h
      refine ⟨(pageTrunc (updMax m T) tr (server sf)).length + d, ?_, ?_⟩
      · simp at hd1
        simp [hd1]
        omega
      · rename_i hcond
        have hle : updMax m T ≤ T := updMax_le m T
        have hm : updMax (some (updMax m T)) T = updMax m T := by
          match hx : updMax m T with
          | 0 => omega
          | k + 1 => simp [updMax, Nat.min_eq_left (by omega : k + 1 ≤ T)]
        rw [hm] at hd2
        omega
    · obtain ⟨he, _⟩ := Prod.mk.injEq .. ▸ Option.some.inj h
      rename_i hcond
      refine ⟨(pageTrunc (updMax m T) tr (server sf)).length, ?_, ?_⟩
      · rw [← he]
        simp
      · omega

end RSConnect

namespace RSConnect
/-! ## Lemmas: the polling loop -/

/-- The sleep phase: with the deadline ahead and no abort, the loop
sleeps tick by tick until `time_slept` reaches `poll_wait + 1`, each
sleep consuming one unit of fuel and one tick of clock. -/
theorem waitAux_sleeps (script : Nat → TaskStatus) (ending poll_wait : Nat)
    (roe : Bool) :
    ∀ (j f t slept k : Nat) (last : Option Nat) (log : List String),
      slept + j = poll_wait + 1 → t + j ≤ ending →
      waitAux script (fun _ => false) ending poll_wait roe (j + f)
          ⟨t, slept, last, k, log⟩ =
        waitAux script (fun _ => false) ending poll_wait roe f
          ⟨t + j, poll_wait + 1, last, k, log⟩ := by
  intro j
  induction j with
  | zero =>
    intro f t slept k last log hslept _
    simp at hslept
    simp [hslept]
  | succ j ih =>
    intro f t slept k last log hslept hend
    have ht : ¬ (ending ≤ t) := by omega
    have hsl : slept ≤ poll_wait := by omega
    rw [Nat.succ_add]
    simp only [waitAux]
    rw [if_neg ht]
    simp only [Bool.false_eq_true, if_false]
    rw [if_pos hsl]
    have e : t + (j + 1) = (t + 1) + j := by omega
    rw [e, ih f (t + 1) (slept + 1) k last log (by omega) (by omega)]

/-- One full poll cycle from a fresh `time_slept = 0`: sleep `poll_wait +
1` ticks, then poll once; a `finished` status terminates with
`terminal_result`, otherwise the loop starts a new cycle with the updated
cursor, poll index and sink. -/
theorem waitAux_cycle (script : Nat → TaskStatus) (ending poll_wait : Nat)
    (roe : Bool) (f t k : Nat) (last : Option Nat) (log : List String)
    (hend : t + poll_wait + 1 < ending) :
    waitAux script (fun _ => false) ending poll_wait roe ((poll_wait + 2) + f)
        ⟨t, 0, last, k, log⟩ =
      (if (script k).finished then
        some (t + poll_wait + 1,
          terminal_result roe (script k) (log ++ (output_task_log (script k) last).2))
      else
        waitAux script (fun _ => false) ending poll_wait roe f
          ⟨t + poll_wait + 1, 0, (output_task_log (script k) last).1, k + 1,
            log ++ (output_task_log (script k) last).2⟩) := by
  have e : (poll_wait + 2) + f = (poll_wait + 1) + (f + 1) := by omega
  rw [e, waitAux_sleeps script ending poll_wait roe (poll_wait + 1) (f + 1) t 0 k last log
    (by omega) (by omega)]
  have ht : ¬ (ending ≤ t + (poll_wait + 1)) := by omega
  simp only [waitAux]
  rw [if_neg ht]
  simp only [Bool.false_eq_true, if_false]
  rw [if_neg (by omega : ¬ (poll_wait + 1 ≤ poll_wait))]
  have e2 : t + (poll_wait + 1) = t + poll_wait + 1 := by omega
  split
  · simp only [terminal_result]
    split
    · split
      · simp [e2]
      · simp [e2]
    · simp [e2]
  · simp [e2]
/-- Peeling one status off a script window. -/
theorem script_window_succ (script : Nat → TaskStatus) (k n : Nat) :
    script_window script k (n + 1) = script k :: script_window script (k + 1) n := by
  simp only [script_window, List.range_succ_eq_map, List.map_cons, List.map_map]
  congr 1
  have hf : ((fun i => script (k + i)) ∘ Nat.succ) = (fun i => script (k + 1 + i)) := by
    funext a
    show script (k + Nat.succ a) = script (k + 1 + a)
    congr 1
    omega
  rw [hf]

/-- Unfolding `fold_log` on a cons. -/
theorem fold_log_cons (ts : TaskStatus) (rest : List TaskStatus) (last : Option Nat) :
    fold_log (ts :: rest) last =
      ((fold_log rest (output_task_log ts last).1).1,
        (output_task_log ts last).2 ++ (fold_log rest (output_task_log ts last).1).2) := rfl

/-- The full run: a script whose polls `k, ..., k + n - 1` are unfinished
and whose poll `k + n` is finished drives the loop through `n + 1` full
cycles; it terminates at clock `t + (n + 1) * (poll_wait + 1)` having
emitted exactly the cursor-deduplicated concatenation of the new-line
arrays, resolved by `terminal_result` on the final status. -/
theorem waitAux_run (script : Nat → TaskStatus) (ending poll_wait : Nat) (roe : Bool) :
    ∀ (n k t : Nat) (last : Option Nat) (log : List String),
      (∀ i, i < n → (script (k + i)).finished = false) →
      (script (k + n)).finished = true →
      t + (n + 1) * (poll_wait + 1) < ending →
      waitAux script (fun _ => false) ending poll_wait roe ((n + 1) * (poll_wait + 2))
          ⟨t, 0, last, k, log⟩ =
        some (t + (n + 1) * (poll_wait + 1),
          terminal_result roe (script (k + n))
            (log ++ (fold_log (script_window script k (n + 1)) last).2)) := by
  intro n
  induction n with
  | zero =>
    intro k t last log _ hfin hend
    have e : (0 + 1) * (poll_wait + 2) = (poll_wait + 2) + 0 := by ring
    rw [e, waitAux_cycle script ending poll_wait roe 0 t k last log (by omega)]
    rw [if_pos (by simpa using hfin)]
    have e1 : t + (0 + 1) * (poll_wait + 1) = t + poll_wait + 1 := by ring
    rw [e1]
    have e2 : script_window script k 1 = [script k] := by
      have r1 : List.range 1 = [0] := by decide
      simp [script_window, r1]
    rw [e2]
    have e3 : (fold_log [script k] last).2 = (output_task_log (script k) last).2 := by
      simp [fold_log]
    rw [e3]
    simp
  | succ n ih =>
    intro k t last log hunf hfin hend
    have e : (n + 1 + 1) * (poll_wait + 2) = (poll_wait + 2) + (n + 1) * (poll_wait + 2) := by
      ring
    rw [e, waitAux_cycle script ending poll_wait roe _ t k last log (by nlinarith)]
    rw [if_neg (by simpa using hunf 0 (by omega))]
    rw [ih (k + 1) (t + poll_wait + 1) (output_task_log (script k) last).1
      (log ++ (output_task_log (script k) last).2)
      (fun i hi => by
        have := hunf (i + 1) (by omega)
        simpa [Nat.add_assoc, Nat.add_comm 1 i] using this)
      (by
        have e2 : k + 1 + n = k + (n + 1) := by omega
        rw [e2]; exact hfin)
      (by nlinarith)]
    conv_rhs => rw [script_window_succ, fold_log_cons]
    have e3 : t + poll_wait + 1 + (n + 1) * (poll_wait + 1) = t + (n + 1 + 1) * (poll_wait + 1) := by
      ring
    have e4 : k + 1 + n = k + (n + 1) := by omega
    simp [e3, e4, List.append_assoc]

/-- Abort latency: with an abort predicate that is true exactly from
clock `N` on, a never-finishing script and the deadline beyond `N`, the
loop raises the aborted error at clock `N` exactly — the predicate is
re-checked at the top of every iteration and no iteration advances the
clock by more than one tick. -/
theorem waitAux_abort (script : Nat → TaskStatus) (ending poll_wait N : Nat) (roe : Bool)
    (hfin : ∀ k, (script k).finished = false) (hN : N < ending) :
    ∀ (fuel : Nat) (s : WaitState), s.t ≤ N →
      2 * (N - s.t) + 1 + (if s.time_slept ≤ poll_wait then 0 else 1) ≤ fuel →
      ∃ lines, waitAux script (fun tt => decide (N ≤ tt)) ending poll_wait roe fuel s =
        some (N, lines, .error .aborted) := by
  intro fuel
  induction fuel with
  | zero =>
    intro s _ hf
    exfalso
    have h1 : (1 : Nat) ≤ 2 * (N - s.t) + 1 + (if s.time_slept ≤ poll_wait then 0 else 1) := by
      split <;> omega
    omega
  | succ fuel ih =>
    intro s hst hf
    obtain ⟨t, slept, last, k, log⟩ := s
    dsimp only at hst hf
    by_cases hb : N ≤ t
    · have heq : t = N := le_antisymm hst hb
      subst heq
      refine ⟨log, ?_⟩
      simp only [waitAux]
      rw [if_neg (by omega : ¬ (ending ≤ t))]
      simp
    · simp only [waitAux]
      rw [if_neg (by omega : ¬ (ending ≤ t))]
      have hd : (decide (N ≤ t)) = false := by
        simp
        omega
      rw [hd]
      simp only [Bool.false_eq_true, if_false]
      by_cases hsl : slept ≤ poll_wait
      · rw [if_pos hsl]
        rw [if_pos hsl] at hf
        apply ih
        · dsimp only
          omega
        · dsimp only
          split <;> omega
      · rw [if_neg hsl]
        rw [if_neg hsl] at hf
        rw [if_neg (by simp [hfin k] : ¬ (script k).finished = true)]
        apply ih
        · dsimp only
          omega
        · dsimp only
          rw [if_pos (by omega : (0 : Nat) ≤ poll_wait)]
          omega

/-- As long as the starting clock plus the fuel stays at or below the
deadline, the loop can never raise the timeout error: every iteration
advances the clock by at most one tick and re-checks the deadline
first. -/
theorem waitAux_no_timeout (script : Nat → TaskStatus) (abort : Nat → Bool)
    (ending poll_wait : Nat) (roe : Bool) :
    ∀ (fuel : Nat) (s : WaitState), s.t + fuel ≤ ending →
      ∀ r, waitAux script abort ending poll_wait roe fuel s = some r →
        r.2.2 ≠ .error .timedOut := by
  intro fuel
  induction fuel with
  | zero =>
    intro s _ r h
    exact absurd h (by simp [waitAux])
  | succ fuel ih =>
    intro s hs r h
    simp only [waitAux] at h
    split at h
    · exfalso
      omega
    · split at h
      · obtain rfl := Option.some.inj h
        simp
      · split at h
        · exact ih _ (by dsimp only; omega) r h
        · split at h
          · split at h
            · split at h
              · obtain rfl := Option.some.inj h
                simp
              · obtain rfl := Option.some.inj h
                simp
            · obtain rfl := Option.some.inj h
              simp
          · exact ih _ (by dsimp only; omega) r h

end RSConnect

namespace RSConnect

/-! ## Claim theorems -/

/-- C1: the claim says a page that would overshoot the effective maximum
is truncated so that exactly `limit` items come back.  The code instead
truncates the page to `abs(delta)` items — the size of the overshoot, not
of the remainder still needed — contradicting both the docstring
("limit: the maximum number of apps to retrieve") and the comment
("If more came back than we need, drop the rest").  Failing input: a
well-behaved server holding 250 apps that answers every page request
exactly, and `limit = 130`: the second page (100 items, 30 needed) is cut
to `abs(130 - 200) = 70` items, so the call returns 170 items, exceeding
the limit of 130. -/
theorem claim_C1_limit_overshoot :
    (retrieve_matching_apps (honestServer 250) [] (some 130) none 10).map
      (fun p => p.1.length) = some 170 := by
  decide

/-- C2: `handle_bad_response` raises an error if and only if a transport
exception was captured, the body carries an `error` field, or the status
is outside `[200, 299]`; with no exception and no `error` field, an
out-of-range status raises `unexpectedStatus` with that exact status and
reason, and an in-range status is a no-op (the function is pure, so the
no-op case has no side effect). -/
theorem claim_C2_validator_iff (url : String) (r : HTTPResponse) :
    ((∃ e, handle_bad_response url r = .error e) ↔
      (r.exception.isSome = true ∨ json_has_error r.json_data = true ∨
        r.status < 200 ∨ 299 < r.status))
    ∧ (r.exception = none → json_has_error r.json_data = false →
        (r.status < 200 ∨ 299 < r.status) →
        handle_bad_response url r = .error (.unexpectedStatus r.status r.reason))
    ∧ (r.exception = none → json_has_error r.json_data = false →
        200 ≤ r.status → r.status ≤ 299 →
        handle_bad_response url r = .ok ()) := by
  rcases r with ⟨st, rs, jd, ex⟩
  cases ex with
  | some e => simp [handle_bad_response]
  | none =>
    by_cases hj : json_has_error jd = true
    · simp [handle_bad_response, hj]
    · rw [Bool.not_eq_true] at hj
      by_cases hst : st < 200 ∨ 299 < st
      · simp [handle_bad_response, hj, hst]
        omega
      · simp [handle_bad_response, hj, hst]

/-- C2 witness: a 404 with no body and no exception raises
`unexpectedStatus 404`, and a bare 200 response is accepted. -/
theorem claim_C2_witness :
    handle_bad_response "u" ⟨404, "Not Found", none, none⟩ =
        .error (.unexpectedStatus 404 "Not Found")
      ∧ handle_bad_response "u" ⟨200, "OK", none, none⟩ = .ok () :=
  ⟨(claim_C2_validator_iff "u" ⟨404, "Not Found", none, none⟩).2.1 rfl rfl (by decide),
   (claim_C2_validator_iff "u" ⟨200, "OK", none, none⟩).2.2 rfl rfl (by decide) (by decide)⟩

/-- C10: the cap is accounted against raw pre-mapping items: the page
requests issued (the trace) are identical for any two mapping functions,
so items dropped by the mapping still count toward the cap and no extra
page is fetched to replace them; concretely, with `limit = 100` against a
server holding 250 apps and a mapping that drops every odd item, a single
page is fetched and only 50 < 100 items are returned even though more
matching apps exist on the server. -/
theorem claim_C10_limit_pre_mapping :
    (∀ (α : Type) (server : SearchFilters → SearchResponse α)
        (filters : List (String × String)) (limit : Option Nat)
        (f g : α → Option α) (fuel : Nat),
        (retrieve_matching_apps server filters limit (some f) fuel).map (fun p => p.2) =
          (retrieve_matching_apps server filters limit (some g) fuel).map (fun p => p.2))
    ∧ (retrieve_matching_apps (honestServer 250) [] (some 100)
          (some (fun n => if n % 2 = 0 then some n else none)) 10).map
        (fun p => (p.1.length, p.2.length)) = some (50, 1)
    ∧ 50 < 100 := by
  refine ⟨?_, by decide, by omega⟩
  intro α server filters limit f g fuel
  rw [retrieve_matching_apps_map, retrieve_matching_apps_map server filters limit g]
  rw [Option.map_map, Option.map_map]
  rfl

end RSConnect

namespace RSConnect

/-- C7 counterexample: the claim's general clause says the first
request's `count` equals `min(limit, 100)` whenever a limit is given and
that paging stops once `min(limit, total)` items are returned; at
`limit = 0` the code treats the limit as absent (Python falsiness): the
first request carries `count = 100` rather than `min(0, 100) = 0`, every
request asks for 100, and all 250 items are returned instead of 0. -/
theorem claim_C7_counterexample :
    (retrieve_matching_apps (honestServer 250) [] (some 0) none 10).map
        (fun p => (p.1.length, p.2.map (fun s => s.count))) = some (250, [100, 100, 100])
    ∧ min 0 page_size = 0 := by
  exact ⟨by decide, by decide⟩

/-- C7 (amended): a `limit` of 0 is treated like no limit; otherwise as
claimed.  Against a well-behaved server with `total = 250` and no limit,
exactly three page requests are issued — the first with `count = 100` and
the caller's filters, the follow-ups carrying the server's continuation
token — the pages hold 100, 100 and 50 items, and all 250 items are
returned in server order after applying the mapping function.  In
general the first request's `count` is `min(limit, 100)` for a nonzero
limit and `100` with no limit. -/
theorem claim_C7_amended_pagination :
    (∀ f : Nat → Option Nat,
      retrieve_matching_apps (honestServer 250) [] none (some f) 10 =
        some (((List.range 250).map f).filterMap id,
          [⟨[], none, 100, none⟩, ⟨[], some 100, 100, some "100"⟩,
            ⟨[], some 200, 100, some "200"⟩]))
    ∧ ((honestServer 250 ⟨[], none, 100, none⟩).applications.length = 100
      ∧ (honestServer 250 ⟨[], some 100, 100, some "100"⟩).applications.length = 100
      ∧ (honestServer 250 ⟨[], some 200, 100, some "200"⟩).applications.length = 50)
    ∧ (∀ (α : Type) (server : SearchFilters → SearchResponse α)
        (filters : List (String × String)) (l : Nat) (mf : Option (α → Option α))
        (fuel : Nat) (res : List α) (trc : List SearchFilters),
        l ≠ 0 →
        retrieve_matching_apps server filters (some l) mf (fuel + 1) = some (res, trc) →
        trc.head? = some ⟨filters, none, min l page_size, none⟩)
    ∧ (∀ (α : Type) (server : SearchFilters → SearchResponse α)
        (filters : List (String × String)) (mf : Option (α → Option α))
        (fuel : Nat) (res : List α) (trc : List SearchFilters),
        retrieve_matching_apps server filters none mf (fuel + 1) = some (res, trc) →
        trc.head? = some ⟨filters, none, page_size, none⟩)
    ∧ (∀ (α : Type) (server : SearchFilters → SearchResponse α)
        (filters : List (String × String)) (T : Nat) (limit : Option Nat)
        (fuel : Nat) (res : List α) (trc : List SearchFilters),
        (∀ sf, (server sf).total = T) →
        retrieve_matching_apps server filters limit none fuel = some (res, trc) →
        updMax limit T ≤ res.length)
    ∧ (∀ l T : Nat, l ≠ 0 → updMax (some l) T = min l T) := by
  refine ⟨?_, by decide, ?_, ?_, ?_, ?_⟩
  · have hnone : retrieve_matching_apps (honestServer 250) [] none none 10 =
        some (List.range 250,
          [⟨[], none, 100, none⟩, ⟨[], some 100, 100, some "100"⟩,
            ⟨[], some 200, 100, some "200"⟩]) := by decide
    intro f
    rw [retrieve_matching_apps_map, hnone]
    rfl
  · intro α server filters l mf fuel res trc hl h
    have h' : retrieveAux server mf (fuel + 1) ⟨filters, none, min l page_size, none⟩
        0 (some l) [] [] = some (res, trc) := by
      simpa [retrieve_matching_apps, hl] using h
    obtain ⟨rest, hr⟩ := retrieveAux_trace_head h'
    rw [hr]
    rfl
  · intro α server filters mf fuel res trc h
    have h' : retrieveAux server mf (fuel + 1) ⟨filters, none, page_size, none⟩
        0 none [] [] = some (res, trc) := by
      simpa [retrieve_matching_apps] using h
    obtain ⟨rest, hr⟩ := retrieveAux_trace_head h'
    rw [hr]
    rfl
  · intro α server filters T limit fuel res trc hT h
    simp only [retrieve_matching_apps] at h
    obtain ⟨d, hd1, hd2⟩ := retrieveAux_reaches server T hT fuel _ 0 limit [] [] res trc h
    simp at hd1
    omega
  · intro l T hl
    match l, hl with
    | k + 1, _ => simp [updMax]

/-- C7 witness: with `limit = 30` against the 250-item server one page
request is issued, and its `count` is `min(30, 100)`. -/
theorem claim_C7_witness :
    ([(⟨[], none, 30, none⟩ : SearchFilters)] : List SearchFilters).head? =
      some ⟨[], none, min 30 page_size, none⟩ :=
  claim_C7_amended_pagination.2.2.1 Nat (honestServer 250) [] 30 none 9
    (List.range 30) [⟨[], none, 30, none⟩] (by decide) (by decide)

end RSConnect

namespace RSConnect

/-- C3 counterexample: the claim says the emitted log equals exactly the
cursor-deduplicated concatenation of the `status` arrays.  When the final
status carries a structured result, the loop additionally emits a
`data (type)` summary line (api.py 238-243): a one-poll script that
finishes at once with `status = ["line"]` and result `{data: "d", type:
"t"}` emits `["line", "d (t)"]`, not `["line"]`. -/
theorem claim_C3_counterexample :
    (wait_for_task (fun _ => resultfulStatus) (fun _ => false) none 1 true true 3 0).map
        (fun p => p.2.1) = some ["line", "d (t)"]
    ∧ (fold_log [resultfulStatus] none).2 = ["line"]
    ∧ (["line", "d (t)"] : List String) ≠ ["line"] :=
  ⟨by decide, by decide, by decide⟩

/-- C3 (amended): for every scripted sequence of valid task-status
responses whose polls `0, ..., n - 1` are unfinished and whose poll `n`
is finished with exit code 0, `wait_for_task` returns successfully; the
log emitted to the sink is the concatenation, over exactly those polls
whose returned `last_status` cursor differs from the locally held cursor,
of their `status` arrays (each such poll emitting all its lines and
updating the held cursor, all other polls emitting nothing), followed by
the extra result/error summary lines of the final status. -/
theorem claim_C3_amended_log (script : Nat → TaskStatus) (n poll_wait : Nat) (roe : Bool)
    (hunf : ∀ i, i < n → (script i).finished = false)
    (hfin : (script n).finished = true)
    (hcode : (script n).code = 0)
    (hbound : (n + 1) * (poll_wait + 1) < 999999999999) :
    wait_for_task script (fun _ => false) none poll_wait roe true
        ((n + 1) * (poll_wait + 2)) 0 =
      some ((n + 1) * (poll_wait + 1),
        (fold_log (script_window script 0 (n + 1)) none).2 ++ finishedExtraLines (script n),
        .ok (none, script n)) := by
  have hrun := waitAux_run script 999999999999 poll_wait roe n 0 0 none []
    (by simpa using hunf) (by simpa using hfin) (by omega)
  simp only [wait_for_task, task_deadline]
  rw [hrun]
  simp [terminal_result, hcode, Except.map]

/-- C3 witness: the two-poll script emits `["a", "b", "c"]` and returns
the final status. -/
theorem claim_C3_witness :
    wait_for_task twoPollScript (fun _ => false) none 1 true true 6 0 =
      some (4,
        (fold_log (script_window twoPollScript 0 2) none).2 ++
          finishedExtraLines (twoPollScript 1),
        .ok (none, twoPollScript 1)) :=
  claim_C3_amended_log twoPollScript 1 1 true
    (by intro i hi; interval_cases i; decide) (by decide) (by decide) (by norm_num)

end RSConnect

namespace RSConnect

/-- C4: for every finished task status, the poller raises an error
exactly when the exit code is nonzero and `raise_on_error` is true; with
a nonzero exit code and `raise_on_error` false it appends the
`Task failed.` line to the log and returns normally; with exit code 0 it
returns normally; and the returned pair is (accumulated log lines if no
sink was supplied, else `None`; the final task status). -/
theorem claim_C4_finished_outcome (ts : TaskStatus) (poll_wait : Nat) (roe hc : Bool)
    (hfin : ts.finished = true)
    (hbound : poll_wait + 1 < 999999999999) :
    ((∃ q, wait_for_task (fun _ => ts) (fun _ => false) none poll_wait roe hc
          (poll_wait + 2) 0 = some q ∧ ∃ e, q.2.2 = .error e) ↔
        (ts.code ≠ 0 ∧ roe = true))
    ∧ (ts.code ≠ 0 → roe = false →
        wait_for_task (fun _ => ts) (fun _ => false) none poll_wait roe hc
            (poll_wait + 2) 0 =
          some (poll_wait + 1,
            ((output_task_log ts none).2 ++ finishedExtraLines ts) ++
              [task_failed_line ts.code],
            .ok (if hc then none
              else some (((output_task_log ts none).2 ++ finishedExtraLines ts) ++
                [task_failed_line ts.code]), ts)))
    ∧ (ts.code = 0 →
        wait_for_task (fun _ => ts) (fun _ => false) none poll_wait roe hc
            (poll_wait + 2) 0 =
          some (poll_wait + 1, (output_task_log ts none).2 ++ finishedExtraLines ts,
            .ok (if hc then none
              else some ((output_task_log ts none).2 ++ finishedExtraLines ts), ts)))
    ∧ (ts.code ≠ 0 → roe = true →
        wait_for_task (fun _ => ts) (fun _ => false) none poll_wait roe hc
            (poll_wait + 2) 0 =
          some (poll_wait + 1, (output_task_log ts none).2 ++ finishedExtraLines ts,
            .error (.taskFailed ts.code))) := by
  have hrun := waitAux_run (fun _ => ts) 999999999999 poll_wait roe 0 0 0 none []
    (fun i hi => absurd hi (by omega)) (by simpa using hfin) (by omega)
  have e2 : (0 : Nat) + (0 + 1) * (poll_wait + 1) = poll_wait + 1 := by ring
  have efold : ([] : List String) ++
      (fold_log (script_window (fun _ => ts) 0 (0 + 1)) none).2 =
      (output_task_log ts none).2 := by
    have r1 : List.range 1 = [0] := by decide
    simp [script_window, r1, fold_log]
  rw [e2, efold] at hrun
  have e1 : (0 + 1) * (poll_wait + 2) = poll_wait + 2 := by ring
  rw [e1] at hrun
  have key : wait_for_task (fun _ => ts) (fun _ => false) none poll_wait roe hc
      (poll_wait + 2) 0 =
      some (poll_wait + 1,
        (terminal_result roe ts ((output_task_log ts none).2)).1,
        (terminal_result roe ts ((output_task_log ts none).2)).2.map
          (fun t2 =>
            (if hc then none
              else some (terminal_result roe ts ((output_task_log ts none).2)).1, t2))) := by
    simp only [wait_for_task, task_deadline]
    rw [hrun]
    rfl
  refine ⟨?_, ?_, ?_, ?_⟩
  · constructor
    · rintro ⟨q, hq, e, he⟩
      rw [key] at hq
      obtain rfl := Option.some.inj hq
      dsimp only at he
      by_cases hcode : ts.code = 0
      · simp [terminal_result, hcode, Except.map] at he
      · by_cases hroe : roe = true
        · exact ⟨hcode, hroe⟩
        · rw [Bool.not_eq_true] at hroe
          simp [terminal_result, hcode, hroe, Except.map] at he
    · rintro ⟨hcode, hroe⟩
      refine ⟨_, key, .taskFailed ts.code, ?_⟩
      simp [terminal_result, hcode, hroe, Except.map]
  · intro hcode hroe
    rw [key]
    simp [terminal_result, hcode, hroe, Except.map]
  · intro hcode
    rw [key]
    simp [terminal_result, hcode, Except.map]
  · intro hcode hroe
    rw [key]
    simp [terminal_result, hcode, hroe, Except.map]

/-- C4 witness: a one-poll script finishing with code 5 and
`raise_on_error` raises `taskFailed 5`. -/
theorem claim_C4_witness :
    wait_for_task (fun _ => failedStatus) (fun _ => false) none 1 true false 3 0 =
      some (2, (output_task_log failedStatus none).2 ++ finishedExtraLines failedStatus,
        .error (.taskFailed failedStatus.code)) :=
  (claim_C4_finished_outcome failedStatus 1 true false (by decide)
    (by norm_num)).2.2.2 (by decide) rfl

end RSConnect

namespace RSConnect

/-- C6: for an abort predicate that becomes true from internal tick `N`
on, a script that has not yet finished, and no timeout, `wait_for_task`
raises the aborted error at clock `N` exactly — the predicate is
re-evaluated at the top of every loop iteration and each iteration sleeps
at most one internal tick, so the stop happens within one tick of the
flip regardless of the configured `poll_wait`. -/
theorem claim_C6_abort_latency (script : Nat → TaskStatus) (poll_wait N : Nat)
    (roe hc : Bool)
    (hfin : ∀ k, (script k).finished = false)
    (hN : N < 999999999999) :
    ∃ lines, wait_for_task script (fun t => decide (N ≤ t)) none poll_wait roe hc
        (2 * N + 2) 0 = some (N, lines, .error .aborted) := by
  obtain ⟨lines, hl⟩ := waitAux_abort script 999999999999 poll_wait N roe hfin hN
    (2 * N + 2) ⟨0, 0, none, 0, []⟩ (by dsimp only; omega) (by dsimp only; split <;> omega)
  refine ⟨lines, ?_⟩
  simp only [wait_for_task, task_deadline]
  rw [hl]
  rfl

/-- C6 witness: with `poll_wait = 10` (5 seconds) and an abort predicate
flipping at tick 3, polling stops at tick 3. -/
theorem claim_C6_witness :
    ∃ lines, wait_for_task neverFinishes (fun t => decide (3 ≤ t)) none 10 true true
        8 0 = some (3, lines, .error .aborted) :=
  claim_C6_abort_latency neverFinishes 10 3 true true (fun _ => rfl) (by norm_num)

/-- C9: a falsy timeout (`0`, like `None`) sets the deadline to the same
unbounded sentinel `999999999999` used when no timeout is supplied, so
`wait_for_task` behaves identically under `timeout = 0` and
`timeout = None`, and the timeout error cannot be raised in any run whose
starting clock plus fuel stays within the sentinel: a zero timeout means
"wait forever", not "fail immediately". -/
theorem claim_C9_zero_timeout :
    (∀ t0 : Nat, task_deadline t0 (some 0) = task_deadline t0 none
      ∧ task_deadline t0 none = 999999999999)
    ∧ (∀ (script : Nat → TaskStatus) (abort : Nat → Bool) (poll_wait : Nat)
        (roe hc : Bool) (fuel t0 : Nat),
        wait_for_task script abort (some 0) poll_wait roe hc fuel t0 =
          wait_for_task script abort none poll_wait roe hc fuel t0)
    ∧ (∀ (script : Nat → TaskStatus) (abort : Nat → Bool) (poll_wait : Nat)
        (roe hc : Bool) (fuel t0 : Nat)
        (q : Nat × List String × Except WaitErr (Option (List String) × TaskStatus)),
        t0 + fuel ≤ 999999999999 →
        wait_for_task script abort none poll_wait roe hc fuel t0 = some q →
        q.2.2 ≠ .error .timedOut) := by
  refine ⟨fun t0 => ⟨rfl, rfl⟩, fun script abort pw roe hc fuel t0 => rfl, ?_⟩
  intro script abort pw roe hc fuel t0 q hb h
  simp only [wait_for_task, task_deadline] at h
  rcases Option.map_eq_some'.mp h with ⟨r, hr, hq⟩
  have hne := waitAux_no_timeout script abort 999999999999 pw roe fuel
    ⟨t0, 0, none, 0, []⟩ (by dsimp only; omega) r hr
  rw [← hq]
  dsimp only
  cases hr22 : r.2.2 with
  | ok v => simp [Except.map]
  | error e =>
    rw [hr22] at hne
    simp only [Except.map]
    intro hcontra
    apply hne
    rw [show e = WaitErr.timedOut from by
      have := congrArg (fun x => match x with
        | Except.error err => err
        | Except.ok _ => WaitErr.timedOut) hcontra
      simpa using this]

/-- C9 witness: the two-poll run under `timeout = 0` equals the run under
no timeout, and its outcome is not the timeout error. -/
theorem claim_C9_witness :
    wait_for_task twoPollScript (fun _ => false) (some 0) 1 true true 6 0 =
        wait_for_task twoPollScript (fun _ => false) none 1 true true 6 0
      ∧ ((4, ["a", "b", "c"],
          Except.ok (none, twoPollScript 1)) :
            Nat × List String × Except WaitErr (Option (List String) × TaskStatus)).2.2 ≠
          Except.error WaitErr.timedOut :=
  ⟨claim_C9_zero_timeout.2.1 twoPollScript (fun _ => false) 1 true true 6 0,
   claim_C9_zero_timeout.2.2 twoPollScript (fun _ => false) 1 true true 6 0 _
     (by norm_num) (by rfl)⟩

end RSConnect

namespace RSConnect

/-- C5: when a later deploy step fails after earlier steps committed
server-side changes, the error propagates at once and the request trace
ends at the failing request: the environment-variable push and the title
update stay in place (they appear in the trace) and no request of any
kind — in particular no undo of those updates — follows the failing
upload or deploy request. -/
theorem claim_C5_no_rollback (srv : DeployServer) (i : Nat) (app : App)
    (app_name app_title : String) (l : List (String × String)) (e : ApiError) (b : Nat)
    (hget : srv.app_get i = .ok app)
    (htitle : app.title ≠ app_title)
    (hl : l ≠ [])
    (henv : srv.app_add_environment_vars app.guid l = .ok ())
    (hupd : srv.app_update_title i app_title = .ok ()) :
    (srv.app_upload i = .error e →
      deploy srv (some i) app_name app_title false (some l) =
        (.error e, [.getApp i, .setEnvVars app.guid l, .updateTitle i app_title,
          .uploadBundle i]))
    ∧ (srv.app_upload i = .ok b → srv.app_deploy i b = .error e →
      deploy srv (some i) app_name app_title false (some l) =
        (.error e, [.getApp i, .setEnvVars app.guid l, .updateTitle i app_title,
          .uploadBundle i, .deployBundle i b])) := by
  constructor
  · intro hup
    simp [deploy, hget, deploy_after_fetch, hl, henv, htitle, hupd, hup]
  · intro hup hdep
    simp [deploy, hget, deploy_after_fetch, hl, henv, htitle, hupd, hup, hdep]

/-- C5 witness: against the scripted server whose upload step fails with
a 500, the deploy of app 7 stops right after the upload request, with the
environment-variable and title updates already committed. -/
theorem claim_C5_witness :
    deploy (sampleDeployServer true false) (some 7) "name" "new title" false
        (some [("K", "V")]) =
      (.error (.unexpectedStatus 500 "Internal Server Error"),
        [.getApp 7, .setEnvVars "guid-7" [("K", "V")], .updateTitle 7 "new title",
          .uploadBundle 7]) :=
  (claim_C5_no_rollback (sampleDeployServer true false) 7 sampleApp "name" "new title"
    [("K", "V")] (.unexpectedStatus 500 "Internal Server Error") 0 rfl (by decide)
    (by decide) rfl rfl).1 rfl

/-- C8: specifying both a new deployment and an app id is an immediate
error; on a redeploy (no "new" flag) with a determined existing app mode
differing from the requested one, `validate_app_mode` raises the mode
conflict — whether that mode came from the server (app id given) or the
saved app store metadata (no app id) — and the validated deployment
pipeline then issues no request at all, so no bundle upload occurs and
the existing app's mode is never silently changed. -/
theorem claim_C8_mode_conflict (srv : DeployServer) (i : Nat) (dm em : AppMode)
    (sr : Option Nat → AppMode → Option Nat × Option AppMode)
    (sam : Nat → Option AppMode) (app_name app_title : String)
    (tid : Bool) (env : Option (List (String × String))) :
    (validate_app_mode true (some i) dm sr sam = .error .bothNewAndAppId)
    ∧ (sam i = some em → em ≠ dm →
        validate_app_mode false (some i) dm sr sam = .error (.modeConflict dm em))
    ∧ ((sr none dm).2 = some em → em ≠ dm →
        validate_app_mode false none dm sr sam = .error (.modeConflict dm em))
    ∧ (sam i = some em → em ≠ dm →
        deploy_with_validation srv false (some i) dm sr sam app_name app_title tid env =
          (.error (.inl (.modeConflict dm em)), [])) := by
  refine ⟨?_, ?_, ?_, ?_⟩
  · simp [validate_app_mode]
  · intro hsam hne
    simp [validate_app_mode, hsam, Ne.symm hne]
  · intro hsr hne
    simp [validate_app_mode, hsr, Ne.symm hne]
  · intro hsam hne
    simp [deploy_with_validation, validate_app_mode, hsam, Ne.symm hne]

/-- C8 witness: requesting a static redeploy of app 7, whose existing
mode is jupyter, is rejected before any request is issued. -/
theorem claim_C8_witness :
    validate_app_mode false (some 7) AppMode.staticMode sampleStoreResolve
        sampleServerMode = .error (.modeConflict AppMode.staticMode AppMode.jupyter)
      ∧ deploy_with_validation (sampleDeployServer true false) false (some 7)
          AppMode.staticMode sampleStoreResolve sampleServerMode "n" "t" false none =
        (.error (.inl (.modeConflict AppMode.staticMode AppMode.jupyter)), []) :=
  ⟨(claim_C8_mode_conflict (sampleDeployServer true false) 7 AppMode.staticMode
      AppMode.jupyter sampleStoreResolve sampleServerMode "n" "t" false none).2.1
      rfl (by decide),
   (claim_C8_mode_conflict (sampleDeployServer true false) 7 AppMode.staticMode
      AppMode.jupyter sampleStoreResolve sampleServerMode "n" "t" false none).2.2.2
      rfl (by decide)⟩

end RSConnect
